import Mathlib

/-!
Verification of the lead-time dashboard ingestion/statistics pipeline
(`src/App.js`, component `DynamicLeadTimeDashboard`).

The pipeline `processCSV` is embedded shallowly: CSV cells after
`Papa.parse` with `dynamicTyping: true` become `CellValue`s, the host's
`new Date(string)` parser is modelled on the ISO calendar-date fragment
(`YYYY-MM-DD` and `YYYY-MM-DDTHH:MM[:SS][Z]`) with the environment's time
zone taken to be UTC, and timestamps are integer milliseconds since the
epoch (`Date.prototype.getTime`).  JavaScript's stable `Array.prototype.sort`
is modelled by `List.insertionSort`, which is stable and computes the same
list for the comparator used by the code.
-/

deriving instance DecidableEq for Except

namespace Dash

/-- A loosely-typed CSV cell as produced by `Papa.parse` with
`dynamicTyping: true`: a string, a number, a boolean, a `Date` object
(recorded by the source text it was built from), `null` (an empty cell)
or `undefined` (a field absent from the row object).  A number is kept
as the unevaluated pair `mant * 10 ^ exp10` exactly as `parseFloat`
decomposes the matched literal (the values the claims exercise are
integers, where this is exact). -/
inductive CellValue where
  | str (s : String)
  | num (mant : Int) (exp10 : Int)
  | boolean (b : Bool)
  | date (s : String)
  | null
  | undefined
deriving Repr, DecidableEq

/-- JavaScript truthiness of a cell value: empty strings, the number 0
(zero exactly when the mantissa is zero), `false`, `null` and
`undefined` are falsy; every other modelled value (including any
object, hence any `Date`) is truthy. -/
def CellValue.truthy : CellValue → Bool
  | .str s => !s.isEmpty
  | .num mant _ => decide (mant ≠ 0)
  | .boolean b => b
  | .date _ => true
  | .null => false
  | .undefined => false

/-- Whitespace characters stripped by Papa's `FLOAT` test (the common
ASCII subset of the JavaScript `\s` class). -/
def isJSSpace (c : Char) : Bool :=
  c == ' ' || c == '\t' || c == '\n' || c == '\r'

/-- Value of a list of decimal digit characters. -/
def digitsVal (cs : List Char) : Nat :=
  cs.foldl (fun a c => a * 10 + (c.toNat - 48)) 0

/-- Split an optional leading minus sign (Papa's `FLOAT` pattern allows
only `-`, not `+`). -/
def splitNeg : List Char → Bool × List Char
  | '-' :: rest => (true, rest)
  | cs => (false, cs)

/-- Parse the mantissa part `\d+\.?|\.\d+|\d+\.\d+` of a numeric literal,
returning integer part, fraction part, fraction length and the rest. -/
def splitMantissa (cs : List Char) : Option (Nat × Nat × Nat × List Char) :=
  let ip := cs.takeWhile Char.isDigit
  let rest := cs.dropWhile Char.isDigit
  match rest with
  | '.' :: rest2 =>
      let fp := rest2.takeWhile Char.isDigit
      let rest3 := rest2.dropWhile Char.isDigit
      if ip.isEmpty && fp.isEmpty then none
      else some (digitsVal ip, digitsVal fp, fp.length, rest3)
  | _ => if ip.isEmpty then none else some (digitsVal ip, 0, 0, rest)

/-- Exponent digits (nonempty, all decimal). -/
def expDigits (ds : List Char) : Option Nat :=
  if ds.isEmpty || !(ds.all Char.isDigit) then none else some (digitsVal ds)

/-- Parse the optional exponent `([eE][-+]?\d+)?` at the end of a numeric
literal. -/
def splitExponent : List Char → Option Int
  | [] => some 0
  | c :: rest =>
      if c == 'e' || c == 'E' then
        match rest with
        | '+' :: ds => (expDigits ds).map (fun n => (n : Int))
        | '-' :: ds => (expDigits ds).map (fun n => -(n : Int))
        | ds => (expDigits ds).map (fun n => (n : Int))
      else none

/-- Models Papa's numeric cell coercion: if the cell text matches the
`FLOAT` pattern `^\s*-?(\d+\.?|\.\d+|\d+\.\d+)([eE][-+]?\d+)?\s*$` the
cell becomes the number `parseFloat` yields, decomposed exactly as
`mant * 10 ^ exp10`. -/
def jsParseFloatLit (s : String) : Option (Int × Int) :=
  let cs0 := s.toList.dropWhile isJSSpace
  let cs1 := (cs0.reverse.dropWhile isJSSpace).reverse
  let nc := splitNeg cs1
  match splitMantissa nc.2 with
  | none => none
  | some (ip, fp, fl, rest) =>
      match splitExponent rest with
      | none => none
      | some ex =>
          let m : Int := (ip : Int) * 10 ^ fl + (fp : Int)
          some (if nc.1 then -m else m, ex - (fl : Int))

/-- Character range test. -/
def chRange (lo c hi : Char) : Bool := decide (lo ≤ c) && decide (c ≤ hi)

/-- Optional time-zone suffix of Papa's `ISO_DATE` pattern:
empty, `Z`, or `[+-][0-2]\d:[0-5]\d`. -/
def isoZone : List Char → Bool
  | [] => true
  | ['Z'] => true
  | [sg, h1, h2, cl, m1, m2] =>
      (sg == '+' || sg == '-') && chRange '0' h1 '2' && h2.isDigit &&
      cl == ':' && chRange '0' m1 '5' && m2.isDigit
  | _ => false

/-- After the seconds of an ISO time: either a fractional part `.\d+`
(ending the match) or a time-zone suffix. -/
def isoFracTail : List Char → Bool
  | '.' :: ds => !ds.isEmpty && ds.all Char.isDigit
  | cs => isoZone cs

/-- After the minutes of an ISO time: optional `:[0-5]\d` seconds with
optional fraction, then an optional zone. -/
def isoAfterMinutes : List Char → Bool
  | ':' :: s1 :: s2 :: rest => chRange '0' s1 '5' && s2.isDigit && isoFracTail rest
  | cs => isoZone cs

/-- Models Papa's `ISO_DATE` recognizer: a cell matching
`\d{4}-[01]\d-[0-3]\dT[0-2]\d:[0-5]\d` followed by optional seconds,
fraction and zone is coerced to a `Date` object by `dynamicTyping`.
The pattern is anchored, so text with surrounding whitespace stays a
string. -/
def isIsoDateLike (s : String) : Bool :=
  match s.toList with
  | y1 :: y2 :: y3 :: y4 :: '-' :: m1 :: m2 :: '-' :: d1 :: d2 :: 'T' ::
      h1 :: h2 :: ':' :: n1 :: n2 :: rest =>
      y1.isDigit && y2.isDigit && y3.isDigit && y4.isDigit &&
      (m1 == '0' || m1 == '1') && m2.isDigit &&
      chRange '0' d1 '3' && d2.isDigit &&
      chRange '0' h1 '2' && h2.isDigit &&
      chRange '0' n1 '5' && n2.isDigit &&
      isoAfterMinutes rest
  | _ => false

/-- Models the per-cell conversion done by `Papa.parse` with
`dynamicTyping: true`: `true`/`TRUE` and `false`/`FALSE` become booleans,
`FLOAT`-matching text becomes a number, `ISO_DATE`-matching text becomes
a `Date`, the empty cell becomes `null`, and everything else stays a
string. -/
def dynamicType (s : String) : CellValue :=
  if s == "true" || s == "TRUE" then .boolean true
  else if s == "false" || s == "FALSE" then .boolean false
  else match jsParseFloatLit s with
  | some me => .num me.1 me.2
  | none =>
      if isIsoDateLike s then .date s
      else if s == "" then .null
      else .str s

/-- Split a character list at every occurrence of a separator character
(`String.prototype.split` on a one-character separator). -/
def splitOnChar (c : Char) : List Char → List (List Char)
  | [] => [[]]
  | x :: xs =>
      match splitOnChar c xs with
      | [] => if x == c then [[], [x]] else [[x]]
      | h :: t => if x == c then [] :: h :: t else (x :: h) :: t

/-- The value of a nonempty all-digit character list, `none` otherwise. -/
def digitsToNat? (cs : List Char) : Option Nat :=
  if cs.isEmpty || !(cs.all Char.isDigit) then none else some (digitsVal cs)

/-- Strip the surrounding whitespace, as `String.prototype.trim` does
(the ASCII whitespace subset). -/
def jsTrim (s : String) : String :=
  String.mk (((s.toList.dropWhile isJSSpace).reverse.dropWhile isJSSpace).reverse)

/-- Gregorian leap year. -/
def isLeapYear (y : Nat) : Bool := (y % 4 == 0 && y % 100 != 0) || y % 400 == 0

/-- Days in a month of the proleptic Gregorian calendar. -/
def daysInMonth (y m : Nat) : Nat :=
  if m == 2 then (if isLeapYear y then 29 else 28)
  else if m == 4 || m == 6 || m == 9 || m == 11 then 30
  else 31

/-- Days from the epoch 1970-01-01 to the civil date `y-m-d`
(standard era-based conversion). -/
def daysFromCivil (y m d : Int) : Int :=
  let yy := if m ≤ 2 then y - 1 else y
  let era := Int.fdiv yy 400
  let yoe := yy - era * 400
  let mp := if 2 < m then m - 3 else m + 9
  let doy := Int.fdiv (153 * mp + 2) 5 + d - 1
  let doe := yoe * 365 + Int.fdiv yoe 4 - Int.fdiv yoe 100 + doy
  era * 146097 + doe - 719468

/-- Civil date `(y, m, d)` of a day count since the epoch (inverse of
`daysFromCivil`). -/
def civilFromDays (z0 : Int) : Int × Int × Int :=
  let z := z0 + 719468
  let era := Int.fdiv z 146097
  let doe := z - era * 146097
  let yoe := Int.fdiv (doe - Int.fdiv doe 1461 + Int.fdiv doe 36524 - Int.fdiv doe 146096) 365
  let y := yoe + era * 400
  let doy := doe - (365 * yoe + Int.fdiv yoe 4 - Int.fdiv yoe 100)
  let mp := Int.fdiv (5 * doy + 2) 153
  let d := doy - Int.fdiv (153 * mp + 2) 5 + 1
  let m := if mp < 10 then mp + 3 else mp - 9
  (if m ≤ 2 then y + 1 else y, m, d)

/-- Parse a calendar date `YYYY-MM-DD` (month and day validated against
the calendar, as the host's ISO date parsing does) to a day count since
the epoch. -/
def parseYMD (s : List Char) : Option Int :=
  match splitOnChar '-' s with
  | [y, m, d] =>
      if y.length == 4 && m.length == 2 && d.length == 2 then
        match digitsToNat? y, digitsToNat? m, digitsToNat? d with
        | some yy, some mm, some dd =>
            if 1 ≤ mm ∧ mm ≤ 12 ∧ 1 ≤ dd ∧ dd ≤ daysInMonth yy mm then
              some (daysFromCivil yy mm dd)
            else none
        | _, _, _ => none
      else none
  | _ => none

/-- Two fixed digits below a bound. -/
def parseTwoDigit (s : List Char) (hi : Nat) : Option Nat :=
  if s.length == 2 then
    match digitsToNat? s with
    | some n => if n < hi then some n else none
    | none => none
  else none

/-- Parse a time-of-day `HH:MM` or `HH:MM:SS` to milliseconds. -/
def parseTimeMs (s : List Char) : Option Int :=
  match splitOnChar ':' s with
  | [h, m] =>
      match parseTwoDigit h 24, parseTwoDigit m 60 with
      | some hh, some mm => some ((hh : Int) * 3600000 + (mm : Int) * 60000)
      | _, _ => none
  | [h, m, sec] =>
      match parseTwoDigit h 24, parseTwoDigit m 60, parseTwoDigit sec 60 with
      | some hh, some mm, some ss =>
          some ((hh : Int) * 3600000 + (mm : Int) * 60000 + (ss : Int) * 1000)
      | _, _, _ => none
  | _ => none

/-- Drop a trailing `Z` zone designator. -/
def stripZ (t : List Char) : List Char :=
  match t.getLast? with
  | some c => if c == 'Z' then t.dropLast else t
  | none => t

/-- Models the host's `new Date(string)` parser on the documented ISO
fragment — `YYYY-MM-DD` (midnight) and `YYYY-MM-DDTHH:MM[:SS][Z]` — as a
timestamp in milliseconds since the epoch; `none` models an invalid date
(`getTime()` is `NaN`).  The environment time zone is taken as UTC, so
local-time and UTC forms coincide; host-specific legacy formats outside
this fragment are not exercised by the repository's documented inputs. -/
def parseDateMs (s : String) : Option Int :=
  match splitOnChar 'T' s.toList with
  | [d] => (parseYMD d).map (fun day => day * 86400000)
  | [d, t] =>
      match parseYMD d, parseTimeMs (stripZ t) with
      | some day, some tms => some (day * 86400000 + tms)
      | _, _ => none
  | _ => none

/-- Zero-padded two-digit rendering. -/
def pad2 (n : Int) : String := if n < 10 then "0" ++ toString n else toString n

/-- Models `Date.prototype.toLocaleDateString` for the `pt-BR` locale
(`dd/mm/yyyy`) in a UTC environment. -/
def ptBRDate (ms : Int) : String :=
  let c := civilFromDays (Int.fdiv ms 86400000)
  pad2 c.2.2 ++ "/" ++ pad2 c.2.1 ++ "/" ++ toString c.1

/-- English weekday abbreviations, Sunday first. -/
def weekdayNames : List String := ["Sun", "Mon", "Tue", "Wed", "Thu", "Fri", "Sat"]

/-- English month abbreviations. -/
def monthNamesEn : List String :=
  ["Jan", "Feb", "Mar", "Apr", "May", "Jun", "Jul", "Aug", "Sep", "Oct", "Nov", "Dec"]

/-- Models `Date.prototype.toString` of a valid date in a UTC
environment. -/
def jsDateToString (ms : Int) : String :=
  let day := Int.fdiv ms 86400000
  let msod := Int.fmod ms 86400000
  let c := civilFromDays day
  let wd := (Int.fmod (day + 4) 7).toNat
  weekdayNames.getD wd "" ++ " " ++ monthNamesEn.getD (c.2.1 - 1).toNat "" ++ " " ++
    pad2 c.2.2 ++ " " ++ toString c.1 ++ " " ++ pad2 (Int.fdiv msod 3600000) ++ ":" ++
    pad2 (Int.fmod (Int.fdiv msod 60000) 60) ++ ":" ++
    pad2 (Int.fmod (Int.fdiv msod 1000) 60) ++ " GMT+0000 (Coordinated Universal Time)"

/-- Strip trailing `0` characters. -/
def stripTrailingZeros (cs : List Char) : List Char :=
  (cs.reverse.dropWhile (fun c => c == '0')).reverse

/-- Left-pad a digit string with zeros to width `k`. -/
def padLeftZeros (s : String) (k : Nat) : String :=
  if s.length < k then String.mk (List.replicate (k - s.length) '0') ++ s else s

/-- Rendering of a number `mant * 10 ^ exp10` by `String(...)`:
the plain integer text for integer values, and the decimal expansion
with trailing zeros dropped otherwise (JavaScript's exponential
rendering of very large or very small magnitudes is outside the
exercised range). -/
def numToJSString (mant exp10 : Int) : String :=
  if 0 ≤ exp10 then toString (mant * (10 : Int) ^ exp10.toNat)
  else
    if mant % 10 ^ (-exp10).toNat = 0 then toString (mant / 10 ^ (-exp10).toNat)
    else
      (if mant < 0 then "-" else "") ++
        toString (mant.natAbs / 10 ^ (-exp10).toNat) ++ "." ++
        String.mk (stripTrailingZeros
          (padLeftZeros (toString (mant.natAbs % 10 ^ (-exp10).toNat)) (-exp10).toNat).toList)

/-- Models the JavaScript `String(...)` conversion applied by the code to
cells (`String(row.ID)` and template-literal interpolation). -/
def CellValue.toJS : CellValue → String
  | .str s => s
  | .num mant exp10 => numToJSString mant exp10
  | .boolean b => if b then "true" else "false"
  | .date s =>
      match parseDateMs s with
      | some ms => jsDateToString ms
      | none => "Invalid Date"
  | .null => "null"
  | .undefined => "undefined"

/-- Models `new Date(String(cell).trim()).getTime()` as used on the date
cells.  For a cell that is already a `Date` object, re-parsing its
`toString` rendering recovers the same timestamp (the modelled fragment
carries no sub-second part), so the original parse result is used
directly; every other cell is stringified, trimmed and parsed. -/
def jsNewDate (c : CellValue) : Option Int :=
  match c with
  | .date s => parseDateMs s
  | c => parseDateMs (jsTrim (CellValue.toJS c))

/-- A `RawRow`: the row object produced by `Papa.parse` with
`header: true`, as an association of header field names to cell
values. -/
abbrev Row := List (String × CellValue)

/-- Field access `row[name]` on a row object; a field absent from the
object is `undefined`. -/
def getCell (row : Row) (f : String) : CellValue :=
  match row.lookup f with
  | some v => v
  | none => .undefined

/-- The fixed required columns (`requiredColumns` in `processCSV`). -/
def requiredColumns : List String := ["ID", "Tipo de Item", "Commited Date", "Closed Date"]

/-- The row-level completeness test
`row.ID && row['Tipo de Item'] && row['Commited Date'] && row['Closed Date']`:
all four required cells must be truthy. -/
def rowComplete (row : Row) : Bool :=
  (getCell row "ID").truthy && (getCell row "Tipo de Item").truthy &&
    (getCell row "Commited Date").truthy && (getCell row "Closed Date").truthy

/-- A `WorkItemRecord` as built by `processCSV` (`commitedDate`,
`closedDate` and `timestamp` are kept as millisecond timestamps). -/
structure Item where
  itemId : String
  type : String
  commitedMs : Int
  closedMs : Int
  leadTime : Int
  dateFormatted : String
  timestamp : Int
deriving Repr, DecidableEq

/-- The structured content of the four `throw new Error(...)` sites of
`processCSV`, one constructor per site, carrying exactly the values the
message template interpolates. -/
inductive ProcessError where
  | schemaError (missing : List String) (found : List String)
  | noValidData
  | dataInvalid (rid : String) (rawCommited : String) (rawClosed : String)
  | dataInconsistent (rid : String) (rawCommited : String) (rawClosed : String)
deriving Repr, DecidableEq

/-- The exact message string each `throw new Error(...)` site builds. -/
def renderError : ProcessError → String
  | .schemaError missing found =>
      "❌ Estrutura do CSV inválida!\n\n" ++
        "Colunas obrigatórias faltando:\n" ++ String.intercalate ", " missing ++ "\n\n" ++
        "Estrutura esperada:\nID, Tipo de Item, Commited Date, Closed Date\n\n" ++
        "Estrutura encontrada:\n" ++ String.intercalate ", " found
  | .noValidData =>
      "❌ Nenhum dado válido encontrado!\n\n" ++
        "Verifique se o CSV possui:\n" ++
        "• Pelo menos uma linha de dados\n" ++
        "• Valores preenchidos em todas as colunas obrigatórias\n" ++
        "• Datas no formato correto (YYYY-MM-DD)"
  | .dataInvalid rid rawC rawZ =>
      "❌ Data inválida encontrada!\n\n" ++
        "Linha com ID: " ++ rid ++ "\n" ++
        "Commited Date: " ++ rawC ++ "\n" ++
        "Closed Date: " ++ rawZ ++ "\n\n" ++
        "Use o formato: YYYY-MM-DD (ex: 2025-01-15)"
  | .dataInconsistent rid rawC rawZ =>
      "❌ Data inconsistente encontrada!\n\n" ++
        "Linha com ID: " ++ rid ++ "\n" ++
        "Closed Date (" ++ rawZ ++ ") é anterior ao Commited Date (" ++ rawC ++ ")\n\n" ++
        "A data de conclusão deve ser igual ou posterior à data de início."

/-- The two error kinds raised from the per-row normalization loop
(`DataError` in the specification's taxonomy). -/
def ProcessError.isDataError : ProcessError → Bool
  | .dataInvalid _ _ _ => true
  | .dataInconsistent _ _ _ => true
  | _ => false

/-- The body of `validRows.map(row => ...)`: stringify and trim id and
type, parse both dates (throwing `dataInvalid` if either is `NaN`),
check `closedDate < commitedDate` (throwing `dataInconsistent`), and
derive `leadTime = Math.floor((closed - commited) / 86400000) + 1`. -/
def normalizeRow (row : Row) : Except ProcessError Item :=
  match jsNewDate (getCell row "Commited Date"), jsNewDate (getCell row "Closed Date") with
  | some cms, some zms =>
      if zms < cms then
        .error (.dataInconsistent (jsTrim (getCell row "ID").toJS)
          (getCell row "Commited Date").toJS (getCell row "Closed Date").toJS)
      else
        .ok { itemId := jsTrim (getCell row "ID").toJS,
              type := jsTrim (getCell row "Tipo de Item").toJS,
              commitedMs := cms, closedMs := zms,
              leadTime := Int.fdiv (zms - cms) 86400000 + 1,
              dateFormatted := ptBRDate zms, timestamp := zms }
  | _, _ =>
      .error (.dataInvalid (jsTrim (getCell row "ID").toJS)
        (getCell row "Commited Date").toJS (getCell row "Closed Date").toJS)

/-- The mapping loop over the surviving rows: the first row whose
normalization throws aborts the whole map with that error. -/
def normalizeAll : List Row → Except ProcessError (List Item)
  | [] => .ok []
  | r :: rs =>
      match normalizeRow r with
      | .error e => .error e
      | .ok it =>
          match normalizeAll rs with
          | .error e => .error e
          | .ok its => .ok (it :: its)

/-- Iteration of `new Set(...)` insertion: keep a value when it has not
been seen yet. -/
def firstSeenAux (seen : List String) : List String → List String
  | [] => []
  | x :: xs =>
      if seen.contains x then firstSeenAux seen xs
      else x :: firstSeenAux (x :: seen) xs

/-- `[...new Set(xs)]`: distinct values in order of first appearance. -/
def firstSeen (l : List String) : List String := firstSeenAux [] l

/-- The comparator `(a, b) => a.timestamp - b.timestamp` of the final
sort, as the ordering it induces. -/
def byTimestamp (a b : Item) : Prop := a.timestamp ≤ b.timestamp

instance : DecidableRel byTimestamp := fun a b => Int.decLe a.timestamp b.timestamp

instance : IsTotal Item byTimestamp := ⟨fun a b => Int.le_total a.timestamp b.timestamp⟩

instance : IsTrans Item byTimestamp := ⟨fun _ _ _ h h2 => le_trans h h2⟩

/-- The header-derived field list of a parse result (`parsed.meta.fields`)
together with the data rows (`parsed.data`). -/
structure ParsedCSV where
  fields : List String
  data : List Row
deriving Repr, DecidableEq

/-- What a successful ingestion stores: the processed dataset, the
distinct item types, and the freshly reset all-active type filters. -/
structure Snapshot where
  data : List Item
  itemTypes : List String
  typeFilters : List (String × Bool)
deriving Repr, DecidableEq

/-- The successful result assembled at the end of `processCSV`:
`processedData` (the stable sort of the normalized items on
`timestamp`), `uniqueTypes` (`[...new Set(...)]` of the sorted items'
types) and `initialFilters` (every type active). -/
def mkSnapshot (items : List Item) : Snapshot :=
  { data := List.insertionSort byTimestamp items,
    itemTypes := firstSeen ((List.insertionSort byTimestamp items).map Item.type),
    typeFilters :=
      (firstSeen ((List.insertionSort byTimestamp items).map Item.type)).map
        (fun t => (t, true)) }

/-- The core of `processCSV`, applied to the `Papa.parse` result:
schema validation, row-level completeness filtering, fail-fast
normalization, the stable sort on `timestamp`, type extraction and
filter initialization.  The function is total and pure; a thrown
error is the `Except.error` case. -/
def processCSV (csv : ParsedCSV) : Except ProcessError Snapshot :=
  if (requiredColumns.filter (fun c => !(csv.fields.contains c))).isEmpty then
    if (csv.data.filter rowComplete).isEmpty then .error .noValidData
    else
      match normalizeAll (csv.data.filter rowComplete) with
      | .error e => .error e
      | .ok items => .ok (mkSnapshot items)
  else
    .error (.schemaError (requiredColumns.filter (fun c => !(csv.fields.contains c)))
      csv.fields)

/-- Apply `dynamicTyping` to every cell of a textual row. -/
def typeRow (r : List (String × String)) : Row :=
  r.map (fun p => (p.1, dynamicType p.2))

/-- Assemble a `Papa.parse` result from the header list and textual
rows. -/
def parsedOfText (fields : List String) (rows : List (List (String × String))) : ParsedCSV :=
  { fields := fields, data := rows.map typeRow }

/-- Ingestion from textual cells: `Papa.parse`'s dynamic typing followed
by `processCSV`. -/
def processText (fields : List String) (rows : List (List (String × String))) :
    Except ProcessError Snapshot :=
  processCSV (parsedOfText fields rows)

/-- The component state touched by an ingestion: `data`, `itemTypes`,
`typeFilters` and the error banner. -/
structure AppState where
  data : List Item
  itemTypes : List String
  typeFilters : List (String × Bool)
  errorMsg : Option String
deriving Repr, DecidableEq

/-- One ingestion event as the caller (`handleFileUpload`) performs it:
on success the three state pieces are replaced together; on a thrown
error only the error banner is set and the previous dataset, type list
and filters are left as they were. -/
def ingest (st : AppState) (csv : ParsedCSV) : AppState :=
  match processCSV csv with
  | .ok snap =>
      { data := snap.data, itemTypes := snap.itemTypes,
        typeFilters := snap.typeFilters, errorMsg := none }
  | .error e =>
      { st with errorMsg := some ("Erro ao processar o arquivo: " ++ renderError e) }

/-- `typeFilters[t]` as a boolean: a type absent from the filter map is
`undefined`, hence falsy. -/
def lookupFilter (fs : List (String × Bool)) (t : String) : Bool :=
  (fs.lookup t).getD false

/-- `filteredData`: the records whose type's filter entry is truthy. -/
def filteredData (d : List Item) (fs : List (String × Bool)) : List Item :=
  d.filter (fun i => lookupFilter fs i.type)

/-- `filteredLeadTimes`: the filtered lead times sorted ascending
(`.sort((a, b) => a - b)`). -/
def sortedLeadTimes (d : List Item) (fs : List (String × Bool)) : List Int :=
  List.insertionSort (· ≤ ·) ((filteredData d fs).map Item.leadTime)

/-- `Math.floor(n * 0.85)`.  For every length that can arise the float
product `n * 0.85` rounds to the correctly rounded value of `17n/20`,
whose floor is the exact rational floor, so the index is modelled
exactly as `n * 85 / 100` in natural division. -/
def p85Index (n : Nat) : Nat := n * 85 / 100

/-- `Math.floor(n * 0.95)`, exactly (see `p85Index`). -/
def p95Index (n : Nat) : Nat := n * 95 / 100

/-- `p85Value`: the element of the sorted filtered lead times at the
p85 rank index, or 0 when no records pass the filter. -/
def p85Value (d : List Item) (fs : List (String × Bool)) : Int :=
  if 0 < (sortedLeadTimes d fs).length then
    (sortedLeadTimes d fs).getD (p85Index (sortedLeadTimes d fs).length) 0
  else 0

/-- `p95Value`: the element at the p95 rank index, or 0 when empty. -/
def p95Value (d : List Item) (fs : List (String × Bool)) : Int :=
  if 0 < (sortedLeadTimes d fs).length then
    (sortedLeadTimes d fs).getD (p95Index (sortedLeadTimes d fs).length) 0
  else 0

/-! ### Concrete inputs used to instantiate the claims -/

/-- Ten records of one type whose lead times are `1..10`. -/
def demoItems : List Item :=
  (List.range 10).map (fun i =>
    { itemId := toString (i + 1), type := "Bug", commitedMs := 0, closedMs := 0,
      leadTime := (i : Int) + 1, dateFormatted := "", timestamp := 0 })

/-- A complete textual row with the given id and dates, of type Bug. -/
def mkTextRow (rid c z : String) : List (String × String) :=
  [("ID", rid), ("Tipo de Item", "Bug"), ("Commited Date", c), ("Closed Date", z)]

/-- A well-formed single-row input whose commitment and closed date are
both `2025-01-01`. -/
def sameDayCSV : ParsedCSV :=
  parsedOfText requiredColumns [mkTextRow "A" "2025-01-01" "2025-01-01"]

/-- The record `processCSV` builds for the row of `sameDayCSV`. -/
def sameDayItem : Item :=
  { itemId := "A", type := "Bug", commitedMs := 1735689600000,
    closedMs := 1735689600000, leadTime := 1,
    dateFormatted := "01/01/2025", timestamp := 1735689600000 }

/-- The snapshot `processCSV` produces for `sameDayCSV`. -/
def sameDaySnap : Snapshot :=
  { data := [sameDayItem], itemTypes := ["Bug"], typeFilters := [("Bug", true)] }

/-- A well-formed single-row input whose closed date precedes its
commitment date. -/
def reversedCSV : ParsedCSV :=
  parsedOfText requiredColumns [mkTextRow "A" "2025-01-05" "2025-01-01"]

/-- A header-complete input whose single surviving row has an
unparseable commitment date. -/
def invalidDateCSV : ParsedCSV :=
  parsedOfText requiredColumns [mkTextRow "A" "garbage" "2025-01-01"]

/-- A header-complete input whose single surviving row has an
unparseable closed date. -/
def closedBadCSV : ParsedCSV :=
  parsedOfText requiredColumns [mkTextRow "A" "2025-01-01" "garbage"]

/-- A prior application state holding the dataset of a previous
successful ingestion. -/
def priorState : AppState :=
  { data := sameDaySnap.data, itemTypes := sameDaySnap.itemTypes,
    typeFilters := sameDaySnap.typeFilters, errorMsg := none }

/-- A header-complete input whose single row has an empty `ID` cell. -/
def noValidCSV : ParsedCSV :=
  parsedOfText requiredColumns [mkTextRow "" "2025-01-01" "2025-01-02"]

/-! ### Structural lemmas about the pipeline -/

/-- A successfully normalized row determines every field of its record:
both dates parsed, `closedMs` is not below `commitedMs` (the
`closedDate < commitedDate` check did not fire), and id, type, lead time
and timestamp are the values the mapping body assigns. -/
theorem normalizeRow_ok_fields {row : Row} {it : Item} (h : normalizeRow row = .ok it) :
    jsNewDate (getCell row "Commited Date") = some it.commitedMs ∧
    jsNewDate (getCell row "Closed Date") = some it.closedMs ∧
    it.commitedMs ≤ it.closedMs ∧
    it.itemId = jsTrim (getCell row "ID").toJS ∧
    it.type = jsTrim (getCell row "Tipo de Item").toJS ∧
    it.leadTime = Int.fdiv (it.closedMs - it.commitedMs) 86400000 + 1 ∧
    it.timestamp = it.closedMs := by
  unfold normalizeRow at h
  split at h
  next cms zms hc hz =>
    split at h
    · exact absurd h (by simp)
    next hnlt =>
      cases h
      exact ⟨hc, hz, Int.not_lt.mp hnlt, rfl, rfl, rfl, rfl⟩
  next => exact absurd h (by simp)

/-- A failing row normalization only raises the two `DataError`
variants. -/
theorem normalizeRow_error_isData {row : Row} {e : ProcessError}
    (h : normalizeRow row = .error e) : e.isDataError = true := by
  unfold normalizeRow at h
  split at h
  · split at h
    · cases h; rfl
    · exact absurd h (by simp)
  · cases h; rfl

/-- Every item produced by the mapping loop comes from one of the
mapped rows. -/
theorem normalizeAll_ok_mem {rs : List Row} {its : List Item} (h : normalizeAll rs = .ok its) :
    ∀ it ∈ its, ∃ r ∈ rs, normalizeRow r = .ok it := by
  induction rs generalizing its with
  | nil =>
      unfold normalizeAll at h
      cases h
      intro it hit
      exact absurd hit (by simp)
  | cons r rs ih =>
      unfold normalizeAll at h
      split at h
      · exact absurd h (by simp)
      next it0 hr0 =>
        split at h
        · exact absurd h (by simp)
        next its0 hall =>
          cases h
          intro it hit
          rcases List.mem_cons.mp hit with h1 | h2
          · exact ⟨r, List.mem_cons_self r rs, h1 ▸ hr0⟩
          · rcases ih hall it h2 with ⟨r2, hr2, hok⟩
            exact ⟨r2, List.mem_cons_of_mem r hr2, hok⟩

/-- An error escaping the mapping loop is an error of some row's
normalization; in particular it is a `DataError`. -/
theorem normalizeAll_error_isData {rs : List Row} {e : ProcessError}
    (h : normalizeAll rs = .error e) : e.isDataError = true := by
  induction rs with
  | nil => exact absurd h (by simp [normalizeAll])
  | cons r rs ih =>
      unfold normalizeAll at h
      split at h
      next he =>
        cases h
        exact normalizeRow_error_isData he
      next =>
        split at h
        · cases h; exact ih (by assumption)
        · exact absurd h (by simp)

/-- If any mapped row fails to normalize, the whole mapping loop
fails. -/
theorem normalizeAll_error_of_mem {rs : List Row} {r : Row} {e : ProcessError}
    (hr : r ∈ rs) (h : normalizeRow r = .error e) :
    ∃ e2, normalizeAll rs = .error e2 := by
  induction rs with
  | nil => exact absurd hr (by simp)
  | cons r0 rs ih =>
      unfold normalizeAll
      rcases List.mem_cons.mp hr with h1 | h2
      · subst h1
        rw [h]
        exact ⟨e, rfl⟩
      · match hr0 : normalizeRow r0 with
        | .error e0 => exact ⟨e0, rfl⟩
        | .ok it0 =>
            rcases ih h2 with ⟨e2, he2⟩
            rw [he2]
            exact ⟨e2, rfl⟩

/-- Fail-fast: the mapping loop reports the error of the first failing
row (all rows before it normalize successfully). -/
theorem normalizeAll_first_error {pre : List Row} {r : Row} {post : List Row} {e : ProcessError}
    (hpre : ∀ p ∈ pre, ∃ it, normalizeRow p = .ok it)
    (h : normalizeRow r = .error e) :
    normalizeAll (pre ++ r :: post) = .error e := by
  induction pre with
  | nil =>
      unfold normalizeAll
      simp only [List.nil_append]
      rw [h]
  | cons p pre ih =>
      unfold normalizeAll
      simp only [List.cons_append]
      rcases hpre p (List.mem_cons_self p pre) with ⟨it, hit⟩
      rw [hit, ih (fun q hq => hpre q (List.mem_cons_of_mem p hq)) ]

/-- Characterization of a successful run of `processCSV`: the header
check passed, at least one row survived the completeness filter, the
mapping loop succeeded, and the snapshot is assembled from its items. -/
theorem processCSV_ok_elim {csv : ParsedCSV} {snap : Snapshot}
    (h : processCSV csv = .ok snap) :
    requiredColumns.filter (fun c => !(csv.fields.contains c)) = [] ∧
    csv.data.filter rowComplete ≠ [] ∧
    ∃ items, normalizeAll (csv.data.filter rowComplete) = .ok items ∧
      snap = mkSnapshot items := by
  unfold processCSV at h
  split at h
  next hmiss =>
    split at h
    · exact absurd h (by simp)
    next hrows =>
      split at h
      · exact absurd h (by simp)
      next items hall =>
        cases h
        exact ⟨List.isEmpty_iff.mp hmiss, fun hc => hrows (by simp [hc]), items, hall, rfl⟩
  next => exact absurd h (by simp)

/-- An error of the mapping loop propagates to `processCSV` when the
header check passes and some row survived the filter. -/
theorem processCSV_of_normalizeAll_error {csv : ParsedCSV} {e : ProcessError}
    (hmiss : requiredColumns.filter (fun c => !(csv.fields.contains c)) = [])
    (hne : csv.data.filter rowComplete ≠ [])
    (h : normalizeAll (csv.data.filter rowComplete) = .error e) :
    processCSV csv = .error e := by
  unfold processCSV
  rw [hmiss]
  simp [List.isEmpty_iff, hne, h]

/-! ### Claims -/

/-- C2: for every dataset and every type-filter set, the p85 and p95
values are obtained by sorting the lead times of the filtered records
ascending and reading the element at 0-based rank index
`floor(n * 0.85)` resp. `floor(n * 0.95)` (no interpolation); both are
0 when no record passes the filter; and on the sorted sequence
`[1..10]` (n = 10) they read index 8 (value 9) and index 9
(value 10). -/
theorem percentile_rank_rule :
    (∀ (d : List Item) (fs : List (String × Bool)),
      ∃ l : List Int, l.Perm ((filteredData d fs).map Item.leadTime) ∧
        l.Sorted (· ≤ ·) ∧
        p85Value d fs = l.getD (l.length * 85 / 100) 0 ∧
        p95Value d fs = l.getD (l.length * 95 / 100) 0 ∧
        (filteredData d fs = [] → p85Value d fs = 0 ∧ p95Value d fs = 0)) ∧
    p85Value demoItems [("Bug", true)] = 9 ∧
    p95Value demoItems [("Bug", true)] = 10 := by
  refine ⟨fun d fs => ?_, by decide, by decide⟩
  refine ⟨sortedLeadTimes d fs, List.perm_insertionSort _ _,
    List.sorted_insertionSort _ _, ?_, ?_, ?_⟩
  · unfold p85Value p85Index
    split
    · rfl
    next hn =>
      rw [List.length_eq_zero.mp (Nat.eq_zero_of_not_pos hn)]
      rfl
  · unfold p95Value p95Index
    split
    · rfl
    next hn =>
      rw [List.length_eq_zero.mp (Nat.eq_zero_of_not_pos hn)]
      rfl
  · intro h0
    have hl : sortedLeadTimes d fs = [] := by
      unfold sortedLeadTimes
      rw [h0]
      rfl
    unfold p85Value p95Value
    rw [hl]
    exact ⟨rfl, rfl⟩

/-- C2 witness: the empty filtered population has p85 = p95 = 0. -/
theorem percentile_rank_rule_witness : p85Value [] [] = 0 ∧ p95Value [] [] = 0 := by
  obtain ⟨l, -, -, -, -, h0⟩ := percentile_rank_rule.1 [] []
  exact h0 rfl

/-- C4: a header lacking required columns makes `processCSV` fail with a
schema error whose missing-column list contains exactly the required
columns absent from the header, and whose message renders verbatim the
expected header list and the header actually found. -/
theorem schema_error_exact_missing (csv : ParsedCSV)
    (h : requiredColumns.filter (fun c => !(csv.fields.contains c)) ≠ []) :
    ∃ m, processCSV csv = .error (.schemaError m csv.fields) ∧
      (∀ c, c ∈ m ↔ c ∈ requiredColumns ∧ c ∉ csv.fields) ∧
      renderError (.schemaError m csv.fields) =
        "❌ Estrutura do CSV inválida!\n\n" ++ "Colunas obrigatórias faltando:\n" ++
          String.intercalate ", " m ++ "\n\n" ++
          ("Estrutura esperada:\n" ++ String.intercalate ", " requiredColumns ++ "\n\n") ++
          "Estrutura encontrada:\n" ++ String.intercalate ", " csv.fields := by
  refine ⟨requiredColumns.filter (fun c => !(csv.fields.contains c)), ?_, ?_, ?_⟩
  · unfold processCSV
    rw [if_neg (by simpa [List.isEmpty_iff] using h)]
  · intro c
    simp [List.mem_filter]
  · rfl

/-- C4 witness: a header with only `ID` is missing the three other
required columns, all reported. -/
theorem schema_error_exact_missing_witness :
    ∃ m, processCSV { fields := ["ID"], data := [] } = .error (.schemaError m ["ID"]) ∧
      (∀ c, c ∈ m ↔ c ∈ requiredColumns ∧ c ∉ ["ID"]) := by
  obtain ⟨m, h1, h2, -⟩ := schema_error_exact_missing { fields := ["ID"], data := [] } (by decide)
  exact ⟨m, h1, h2⟩

/-- C9: a header containing all required columns but whose rows all fail
the completeness filter makes `processCSV` fail with `noValidData`,
an error distinct from every schema error. -/
theorem no_valid_rows_error (csv : ParsedCSV)
    (hmiss : requiredColumns.filter (fun c => !(csv.fields.contains c)) = [])
    (hrows : csv.data.filter rowComplete = []) :
    processCSV csv = .error .noValidData ∧
      ∀ m found, ProcessError.noValidData ≠ ProcessError.schemaError m found := by
  constructor
  · unfold processCSV
    rw [hmiss, hrows]
    rfl
  · intro m found hc
    exact ProcessError.noConfusion hc

/-- C9 witness: a complete header whose only row has an empty id. -/
theorem no_valid_rows_error_witness : processCSV noValidCSV = .error .noValidData :=
  (no_valid_rows_error noValidCSV (by decide) (by decide)).1

/-- C10: a row survives the completeness filter exactly when all four
dynamically-typed required cells are truthy; the texts `0` and `false`
coerce to falsy values and are dropped despite being non-empty, while a
whitespace-only cell stays a truthy string and passes. -/
theorem row_survival_by_truthiness :
    (∀ (csv : ParsedCSV) (row : Row),
      row ∈ csv.data.filter rowComplete ↔
        row ∈ csv.data ∧
          ((getCell row "ID").truthy && (getCell row "Tipo de Item").truthy &&
            (getCell row "Commited Date").truthy &&
            (getCell row "Closed Date").truthy) = true) ∧
    dynamicType "0" = .num 0 0 ∧ (dynamicType "0").truthy = false ∧
    dynamicType "false" = .boolean false ∧ (dynamicType "false").truthy = false ∧
    (dynamicType " ").truthy = true ∧
    (processText requiredColumns
        [mkTextRow "0" "2025-01-01" "2025-01-02",
         mkTextRow "B1" "2025-01-01" "2025-01-02"]).map
      (fun s => s.data.map Item.itemId) = .ok ["B1"] ∧
    (processText requiredColumns [mkTextRow " " "2025-01-01" "2025-01-02"]).map
      (fun s => s.data.length) = .ok 1 := by
  refine ⟨fun csv row => ?_, by decide, by decide, by decide, by decide, by decide,
    by decide, by decide⟩
  rw [List.mem_filter]
  unfold rowComplete
  exact Iff.rfl

/-- C5 counterexample: the completeness filter tests coerced truthiness,
not non-emptiness of the trimmed text.  A whitespace-only `ID` cell (a
truthy string) is NOT dropped and yields a record whose trimmed id is
empty, contradicting both "a row in which any required field is
whitespace-only is silently dropped" and "every record has a non-empty
trimmed id"; and a row whose `ID` cell is the non-empty text `0` (which
coerces to the number 0) IS dropped, contradicting "exactly those rows
whose four required fields are all non-empty after trimming are passed
on". -/
theorem completeness_filter_cex :
    jsTrim " " = "" ∧
    (processText requiredColumns
        [mkTextRow " " "2025-01-01" "2025-01-02",
         mkTextRow "B1" "2025-01-01" "2025-01-01"]).map
      (fun s => s.data.map Item.itemId) = .ok ["B1", ""] ∧
    jsTrim "0" ≠ "" ∧
    (processText requiredColumns
        [mkTextRow "0" "2025-01-01" "2025-01-02",
         mkTextRow "B1" "2025-01-01" "2025-01-02"]).map
      (fun s => s.data.map Item.itemId) = .ok ["B1"] := by
  exact ⟨rfl, by decide, by decide, by decide⟩

/-- C5 (amended): the rows passed to normalization are exactly those
whose four dynamically-typed required cells are truthy; rows failing
this check are dropped without aborting the ingestion (when at least
one row survives, the no-valid-data error is impossible); and every
record of a successful ingestion takes its id and type from a surviving
row as the trimmed stringification of its cells (which is empty for a
whitespace-only cell). -/
theorem completeness_filter_truthiness :
    (∀ csv : ParsedCSV,
      requiredColumns.filter (fun c => !(csv.fields.contains c)) = [] →
      (∃ row ∈ csv.data, rowComplete row = true) →
      processCSV csv ≠ .error .noValidData) ∧
    (∀ (csv : ParsedCSV) (snap : Snapshot), processCSV csv = .ok snap →
      ∀ it ∈ snap.data, ∃ row, row ∈ csv.data ∧ rowComplete row = true ∧
        it.itemId = jsTrim (getCell row "ID").toJS ∧
        it.type = jsTrim (getCell row "Tipo de Item").toJS) := by
  constructor
  · rintro csv hmiss ⟨row, hrow, hcomp⟩ habs
    unfold processCSV at habs
    rw [hmiss] at habs
    have hne : ¬ (csv.data.filter rowComplete).isEmpty = true := by
      simp only [List.isEmpty_iff]
      intro h0
      have hm : row ∈ csv.data.filter rowComplete := List.mem_filter.mpr ⟨hrow, hcomp⟩
      rw [h0] at hm
      exact absurd hm (by simp)
    have habs2 :
        (if (csv.data.filter rowComplete).isEmpty = true then
            (Except.error ProcessError.noValidData : Except ProcessError Snapshot)
          else
            match normalizeAll (csv.data.filter rowComplete) with
            | Except.error e => Except.error e
            | Except.ok items => Except.ok (mkSnapshot items)) =
          Except.error ProcessError.noValidData := habs
    rw [if_neg hne] at habs2
    cases hall : normalizeAll (csv.data.filter rowComplete) with
    | error e =>
        rw [hall] at habs2
        injection habs2 with habs3
        have hd := normalizeAll_error_isData hall
        rw [habs3] at hd
        exact absurd hd (by simp [ProcessError.isDataError])
    | ok items =>
        rw [hall] at habs2
        exact Except.noConfusion habs2
  · intro csv snap h it hit
    rcases processCSV_ok_elim h with ⟨-, -, items, hall, hsnap⟩
    subst hsnap
    have hmem : it ∈ items := by
      have := hit
      simp only [mkSnapshot] at this
      exact (List.perm_insertionSort byTimestamp items).mem_iff.mp this
    rcases normalizeAll_ok_mem hall it hmem with ⟨row, hrow, hok⟩
    rcases normalizeRow_ok_fields hok with ⟨-, -, -, hid, hty, -, -⟩
    rcases List.mem_filter.mp hrow with ⟨hrowd, hcomp⟩
    exact ⟨row, hrowd, hcomp, hid, hty⟩

/-- C5 witness: a dropped incomplete row does not abort the ingestion
when another row is valid. -/
theorem completeness_filter_truthiness_witness :
    processCSV (parsedOfText requiredColumns
      [mkTextRow "" "2025-01-01" "2025-01-02",
       mkTextRow "B1" "2025-01-01" "2025-01-02"]) ≠ .error .noValidData :=
  completeness_filter_truthiness.1
    (parsedOfText requiredColumns
      [mkTextRow "" "2025-01-01" "2025-01-02",
       mkTextRow "B1" "2025-01-01" "2025-01-02"])
    (by decide)
    ⟨typeRow (mkTextRow "B1" "2025-01-01" "2025-01-02"), by decide, by decide⟩

/-- C8: every record of a successfully ingested dataset satisfies
`closedAt >= committedAt` (on the stored timestamps) and
`leadTimeDays >= 1`; records are immutable values of the pipeline (the
snapshot stores them as built by normalization, never rewritten). -/
theorem record_invariants {csv : ParsedCSV} {snap : Snapshot}
    (h : processCSV csv = .ok snap) :
    ∀ it ∈ snap.data, it.commitedMs ≤ it.closedMs ∧ 1 ≤ it.leadTime := by
  rcases processCSV_ok_elim h with ⟨-, -, items, hall, hsnap⟩
  subst hsnap
  intro it hit
  have hmem : it ∈ items := by
    simp only [mkSnapshot] at hit
    exact (List.perm_insertionSort byTimestamp items).mem_iff.mp hit
  rcases normalizeAll_ok_mem hall it hmem with ⟨row, -, hok⟩
  rcases normalizeRow_ok_fields hok with ⟨-, -, hle, -, -, hlt, -⟩
  refine ⟨hle, ?_⟩
  rw [hlt]
  have h0 : 0 ≤ Int.fdiv (it.closedMs - it.commitedMs) 86400000 :=
    Int.fdiv_nonneg (by omega) (by norm_num)
  omega

/-- C8 witness: the invariants at the record of the same-day single-row
input. -/
theorem record_invariants_witness :
    sameDayItem.commitedMs ≤ sameDayItem.closedMs ∧ 1 ≤ sameDayItem.leadTime :=
  @record_invariants sameDayCSV sameDaySnap (by decide) sameDayItem (by decide)

/-- C1 counterexample: time-of-day components are not normalized away
before the subtraction.  For the surviving row committed at
`2025-01-01T12:00` and closed at `2025-01-02T06:00` the code derives
`leadTimeDays = 1` from the raw 18-hour timestamp difference, while the
whole-day difference of the two dates truncated to day granularity,
plus 1, is 2. -/
theorem lead_time_time_of_day_cex :
    (processText requiredColumns
        [mkTextRow "A1" "2025-01-01T12:00" "2025-01-02T06:00"]).map
      (fun s => s.data.map Item.leadTime) = .ok [1] ∧
    (processText requiredColumns
        [mkTextRow "A1" "2025-01-01T12:00" "2025-01-02T06:00"]).map
      (fun s => s.data.map (fun it =>
        Int.fdiv it.closedMs 86400000 - Int.fdiv it.commitedMs 86400000 + 1)) = .ok [2] ∧
    (1 : Int) ≠ 2 := by
  exact ⟨by decide, by decide, by decide⟩

/-- C1 (amended): every surviving record's lead time is
`floor((closedAt - committedAt) in ms / 86400000) + 1` computed on the
raw parsed timestamps; when both timestamps are day-aligned (as for any
date-only input such as the canonical `YYYY-MM-DD`) this equals the
whole-day difference of the truncated dates plus 1; and a surviving
record whose commitment and closed timestamps fall on the same calendar
day gets lead time exactly 1 regardless of time-of-day (the difference
is then below 86400000 ms, so the floored quotient is 0). -/
theorem lead_time_inclusive_day_count {csv : ParsedCSV} {snap : Snapshot}
    (h : processCSV csv = .ok snap) :
    ∀ it ∈ snap.data,
      it.leadTime = Int.fdiv (it.closedMs - it.commitedMs) 86400000 + 1 ∧
      (Int.fmod it.commitedMs 86400000 = 0 → Int.fmod it.closedMs 86400000 = 0 →
        it.leadTime =
          Int.fdiv it.closedMs 86400000 - Int.fdiv it.commitedMs 86400000 + 1) ∧
      (Int.fdiv it.closedMs 86400000 = Int.fdiv it.commitedMs 86400000 →
        it.leadTime = 1) := by
  rcases processCSV_ok_elim h with ⟨-, -, items, hall, hsnap⟩
  subst hsnap
  intro it hit
  have hmem : it ∈ items := by
    simp only [mkSnapshot] at hit
    exact (List.perm_insertionSort byTimestamp items).mem_iff.mp hit
  rcases normalizeAll_ok_mem hall it hmem with ⟨row, -, hok⟩
  rcases normalizeRow_ok_fields hok with ⟨-, -, hle, -, -, hlt, -⟩
  refine ⟨hlt, ?_, ?_⟩
  · intro hc hz
    have hc2 := Int.fdiv_add_fmod it.commitedMs 86400000
    have hz2 := Int.fdiv_add_fmod it.closedMs 86400000
    rw [hc] at hc2
    rw [hz] at hz2
    have hsub : it.closedMs - it.commitedMs =
        86400000 * (Int.fdiv it.closedMs 86400000 - Int.fdiv it.commitedMs 86400000) := by
      omega
    rw [hlt, hsub, Int.mul_fdiv_cancel_left _ (by norm_num)]
  · intro hday
    have h1 := Int.fdiv_add_fmod it.closedMs 86400000
    have h2 := Int.fdiv_add_fmod it.commitedMs 86400000
    have h3 := Int.fdiv_add_fmod (it.closedMs - it.commitedMs) 86400000
    have hb1 : 0 ≤ Int.fmod it.closedMs 86400000 := Int.fmod_nonneg' _ (by norm_num)
    have hb1b : Int.fmod it.closedMs 86400000 < 86400000 := Int.fmod_lt_of_pos _ (by norm_num)
    have hb2 : 0 ≤ Int.fmod it.commitedMs 86400000 := Int.fmod_nonneg' _ (by norm_num)
    have hb2b : Int.fmod it.commitedMs 86400000 < 86400000 := Int.fmod_lt_of_pos _ (by norm_num)
    have hb3 : 0 ≤ Int.fmod (it.closedMs - it.commitedMs) 86400000 :=
      Int.fmod_nonneg' _ (by norm_num)
    have hb3b : Int.fmod (it.closedMs - it.commitedMs) 86400000 < 86400000 :=
      Int.fmod_lt_of_pos _ (by norm_num)
    rw [hlt]
    omega

/-- C1 witness: the amended rule at the same-day date-only input. -/
theorem lead_time_inclusive_day_count_witness : sameDayItem.leadTime = 1 :=
  ((@lead_time_inclusive_day_count sameDayCSV sameDaySnap (by decide))
    sameDayItem (by decide)).2.2 (by decide)

/-- C3: ingestion is atomic.  A failed `processCSV` leaves the previous
dataset, type list and type filters untouched, while a successful one
replaces all three together; and a surviving row whose closed date
precedes its commitment date makes the whole ingestion fail with a
`DataError` — with the offending row's id and both raw date values in
the error when it is the first failing row. -/
theorem ingestion_atomic :
    (∀ (st : AppState) (csv : ParsedCSV) (e : ProcessError),
      processCSV csv = .error e →
        (ingest st csv).data = st.data ∧ (ingest st csv).itemTypes = st.itemTypes ∧
          (ingest st csv).typeFilters = st.typeFilters) ∧
    (∀ (st : AppState) (csv : ParsedCSV) (snap : Snapshot),
      processCSV csv = .ok snap →
        ingest st csv = { data := snap.data, itemTypes := snap.itemTypes,
                          typeFilters := snap.typeFilters, errorMsg := none }) ∧
    (∀ (csv : ParsedCSV) (row : Row) (cms zms : Int),
      requiredColumns.filter (fun c => !(csv.fields.contains c)) = [] →
      row ∈ csv.data.filter rowComplete →
      jsNewDate (getCell row "Commited Date") = some cms →
      jsNewDate (getCell row "Closed Date") = some zms →
      zms < cms →
      ∃ e, processCSV csv = .error e ∧ e.isDataError = true) ∧
    (∀ (csv : ParsedCSV) (pre post : List Row) (row : Row) (cms zms : Int),
      requiredColumns.filter (fun c => !(csv.fields.contains c)) = [] →
      csv.data.filter rowComplete = pre ++ row :: post →
      (∀ p ∈ pre, ∃ it2, normalizeRow p = .ok it2) →
      jsNewDate (getCell row "Commited Date") = some cms →
      jsNewDate (getCell row "Closed Date") = some zms →
      zms < cms →
      processCSV csv = .error (.dataInconsistent (jsTrim (getCell row "ID").toJS)
        (getCell row "Commited Date").toJS (getCell row "Closed Date").toJS)) := by
  refine ⟨?_, ?_, ?_, ?_⟩
  · intro st csv e h
    unfold ingest
    rw [h]
    exact ⟨rfl, rfl, rfl⟩
  · intro st csv snap h
    unfold ingest
    rw [h]
  · intro csv row cms zms hmiss hrow hc hz hlt2
    have herr : normalizeRow row = .error (.dataInconsistent (jsTrim (getCell row "ID").toJS)
        (getCell row "Commited Date").toJS (getCell row "Closed Date").toJS) := by
      simp [normalizeRow, hc, hz, hlt2]
    rcases normalizeAll_error_of_mem hrow herr with ⟨e2, he2⟩
    have hne : csv.data.filter rowComplete ≠ [] := by
      intro h0
      rw [h0] at hrow
      exact absurd hrow (by simp)
    exact ⟨e2, processCSV_of_normalizeAll_error hmiss hne he2,
      normalizeAll_error_isData he2⟩
  · intro csv pre post row cms zms hmiss hsplit hpre hc hz hlt2
    have herr : normalizeRow row = .error (.dataInconsistent (jsTrim (getCell row "ID").toJS)
        (getCell row "Commited Date").toJS (getCell row "Closed Date").toJS) := by
      simp [normalizeRow, hc, hz, hlt2]
    have hall : normalizeAll (csv.data.filter rowComplete) =
        .error (.dataInconsistent (jsTrim (getCell row "ID").toJS)
          (getCell row "Commited Date").toJS (getCell row "Closed Date").toJS) := by
      rw [hsplit]
      exact normalizeAll_first_error hpre herr
    have hne : csv.data.filter rowComplete ≠ [] := by
      rw [hsplit]
      simp
    exact processCSV_of_normalizeAll_error hmiss hne hall

/-- C3 witness: the reversed-dates input aborts with the structured
inconsistency error naming the row and both values, and the prior
state's dataset survives unchanged. -/
theorem ingestion_atomic_witness :
    processCSV reversedCSV = .error (.dataInconsistent "A" "2025-01-05" "2025-01-01") ∧
    (ingest priorState reversedCSV).data = priorState.data := by
  have h4 := ingestion_atomic.2.2.2 reversedCSV [] []
    (typeRow (mkTextRow "A" "2025-01-05" "2025-01-01")) 1736035200000 1735689600000
    (by decide) (by decide) (fun p hp => absurd hp (by simp)) (by decide) (by decide)
    (by decide)
  exact ⟨h4, (ingestion_atomic.1 priorState reversedCSV _ h4).1⟩

/-- C6 counterexample: the invalid-date message does not identify which
of the two date fields is invalid.  Two ingestions in which a different
field is the only unparseable one — commitment date `garbage` versus
closed date `garbage` — abort with the same error constructor, and the
two messages are the same fixed template around the echoed values: no
part of either message marks the failing field. -/
theorem invalid_date_field_marker_cex :
    jsNewDate (getCell (typeRow (mkTextRow "A" "garbage" "2025-01-01"))
      "Commited Date") = none ∧
    jsNewDate (getCell (typeRow (mkTextRow "A" "garbage" "2025-01-01"))
      "Closed Date") = some 1735689600000 ∧
    jsNewDate (getCell (typeRow (mkTextRow "A" "2025-01-01" "garbage"))
      "Commited Date") = some 1735689600000 ∧
    jsNewDate (getCell (typeRow (mkTextRow "A" "2025-01-01" "garbage"))
      "Closed Date") = none ∧
    processCSV invalidDateCSV = .error (.dataInvalid "A" "garbage" "2025-01-01") ∧
    processCSV closedBadCSV = .error (.dataInvalid "A" "2025-01-01" "garbage") ∧
    renderError (.dataInvalid "A" "garbage" "2025-01-01") =
      "❌ Data inválida encontrada!\n\nLinha com ID: A\nCommited Date: garbage\nClosed Date: 2025-01-01\n\nUse o formato: YYYY-MM-DD (ex: 2025-01-15)" ∧
    renderError (.dataInvalid "A" "2025-01-01" "garbage") =
      "❌ Data inválida encontrada!\n\nLinha com ID: A\nCommited Date: 2025-01-01\nClosed Date: garbage\n\nUse o formato: YYYY-MM-DD (ex: 2025-01-15)" := by
  exact ⟨by decide, by decide, by decide, by decide, by decide, by decide,
    by decide, by decide⟩

/-- C6 (amended): a surviving row whose commitment-date or closed-date
string fails to parse makes the whole ingestion fail with a `DataError`;
when it is the first failing row, the error carries the row's trimmed id
and both raw date cell values, and its message names the id
(`Linha com ID:`), echoes both date fields with their values (the
invalid one among them), and states the expected format (`YYYY-MM-DD`)
— without identifying which of the two fields is invalid: the same
fixed template is used whichever field fails (see the
counterexample). -/
theorem invalid_date_error :
    (∀ (csv : ParsedCSV) (row : Row),
      requiredColumns.filter (fun c => !(csv.fields.contains c)) = [] →
      row ∈ csv.data.filter rowComplete →
      (jsNewDate (getCell row "Commited Date") = none ∨
        jsNewDate (getCell row "Closed Date") = none) →
      ∃ e, processCSV csv = .error e ∧ e.isDataError = true) ∧
    (∀ (csv : ParsedCSV) (pre post : List Row) (row : Row),
      requiredColumns.filter (fun c => !(csv.fields.contains c)) = [] →
      csv.data.filter rowComplete = pre ++ row :: post →
      (∀ p ∈ pre, ∃ it2, normalizeRow p = .ok it2) →
      (jsNewDate (getCell row "Commited Date") = none ∨
        jsNewDate (getCell row "Closed Date") = none) →
      processCSV csv = .error (.dataInvalid (jsTrim (getCell row "ID").toJS)
          (getCell row "Commited Date").toJS (getCell row "Closed Date").toJS) ∧
        renderError (.dataInvalid (jsTrim (getCell row "ID").toJS)
            (getCell row "Commited Date").toJS (getCell row "Closed Date").toJS) =
          "❌ Data inválida encontrada!\n\n" ++
            "Linha com ID: " ++ jsTrim (getCell row "ID").toJS ++ "\n" ++
            "Commited Date: " ++ (getCell row "Commited Date").toJS ++ "\n" ++
            "Closed Date: " ++ (getCell row "Closed Date").toJS ++ "\n\n" ++
            "Use o formato: YYYY-MM-DD (ex: 2025-01-15)") := by
  have herr : ∀ row : Row,
      (jsNewDate (getCell row "Commited Date") = none ∨
        jsNewDate (getCell row "Closed Date") = none) →
      normalizeRow row = .error (.dataInvalid (jsTrim (getCell row "ID").toJS)
        (getCell row "Commited Date").toJS (getCell row "Closed Date").toJS) := by
    intro row hbad
    rcases hbad with hb | hb
    · cases hz : jsNewDate (getCell row "Closed Date") with
      | none => simp [normalizeRow, hb, hz]
      | some z => simp [normalizeRow, hb, hz]
    · cases hc : jsNewDate (getCell row "Commited Date") with
      | none => simp [normalizeRow, hb, hc]
      | some c => simp [normalizeRow, hb, hc]
  constructor
  · intro csv row hmiss hrow hbad
    rcases normalizeAll_error_of_mem hrow (herr row hbad) with ⟨e2, he2⟩
    have hne : csv.data.filter rowComplete ≠ [] := by
      intro h0
      rw [h0] at hrow
      exact absurd hrow (by simp)
    exact ⟨e2, processCSV_of_normalizeAll_error hmiss hne he2,
      normalizeAll_error_isData he2⟩
  · intro csv pre post row hmiss hsplit hpre hbad
    have hall : normalizeAll (csv.data.filter rowComplete) =
        .error (.dataInvalid (jsTrim (getCell row "ID").toJS)
          (getCell row "Commited Date").toJS (getCell row "Closed Date").toJS) := by
      rw [hsplit]
      exact normalizeAll_first_error hpre (herr row hbad)
    have hne : csv.data.filter rowComplete ≠ [] := by
      rw [hsplit]
      simp
    exact ⟨processCSV_of_normalizeAll_error hmiss hne hall, rfl⟩

/-- C6 witness: the single-row input with unparseable commitment date
aborts with the structured invalid-date error. -/
theorem invalid_date_error_witness :
    processCSV invalidDateCSV = .error (.dataInvalid "A" "garbage" "2025-01-01") :=
  (invalid_date_error.2 invalidDateCSV [] [] (typeRow (mkTextRow "A" "garbage" "2025-01-01"))
    (by decide) (by decide) (fun p hp => absurd hp (by simp)) (Or.inl (by decide))).1

/-- C7: the dataset of a successful ingestion is sorted ascending by
`closedAt` (timestamp); among records with an equal timestamp the
dataset preserves the normalization (input-row) order — the sort is
stable; and ingesting the same parsed input twice yields the identical
dataset. -/
theorem dataset_sorted_stable_deterministic :
    (∀ (csv : ParsedCSV) (snap : Snapshot), processCSV csv = .ok snap →
      snap.data.Sorted byTimestamp) ∧
    (∀ (csv : ParsedCSV) (snap : Snapshot) (items : List Item),
      processCSV csv = .ok snap →
      normalizeAll (csv.data.filter rowComplete) = .ok items →
      ∀ t : Int, snap.data.filter (fun it => it.timestamp == t) =
        items.filter (fun it => it.timestamp == t)) ∧
    (∀ (csv : ParsedCSV) (snap1 snap2 : Snapshot),
      processCSV csv = .ok snap1 → processCSV csv = .ok snap2 → snap1 = snap2) := by
  refine ⟨?_, ?_, ?_⟩
  · intro csv snap h
    rcases processCSV_ok_elim h with ⟨-, -, items, -, hsnap⟩
    subst hsnap
    simpa only [mkSnapshot] using List.sorted_insertionSort byTimestamp items
  · intro csv snap items h hall t
    rcases processCSV_ok_elim h with ⟨-, -, items2, hall2, hsnap⟩
    rw [hall] at hall2
    injection hall2 with he
    subst he
    subst hsnap
    simp only [mkSnapshot]
    have hpair : (items.filter (fun it => it.timestamp == t)).Pairwise byTimestamp := by
      apply List.pairwise_of_forall_mem_list
      intro a ha b hb
      have ha3 : a.timestamp = t := by simpa using (List.mem_filter.mp ha).2
      have hb3 : b.timestamp = t := by simpa using (List.mem_filter.mp hb).2
      unfold byTimestamp
      rw [ha3, hb3]
    have hsub : List.Sublist (items.filter (fun it => it.timestamp == t))
        (List.insertionSort byTimestamp items) :=
      List.sublist_insertionSort hpair (List.filter_sublist items)
    have hAA : (items.filter (fun it => it.timestamp == t)).filter
        (fun it => it.timestamp == t) = items.filter (fun it => it.timestamp == t) :=
      List.filter_eq_self.mpr (fun a ha => (List.mem_filter.mp ha).2)
    have hsub2 := hsub.filter (fun it => it.timestamp == t)
    rw [hAA] at hsub2
    have hperm : List.Perm
        ((List.insertionSort byTimestamp items).filter (fun it => it.timestamp == t))
        (items.filter (fun it => it.timestamp == t)) :=
      (List.perm_insertionSort byTimestamp items).filter _
    exact (hsub2.eq_of_length hperm.length_eq.symm).symm
  · intro csv s1 s2 h1 h2
    rw [h1] at h2
    injection h2

/-- C7 witness: the same-day dataset is sorted by timestamp. -/
theorem dataset_sorted_stable_deterministic_witness :
    sameDaySnap.data.Sorted byTimestamp :=
  dataset_sorted_stable_deterministic.1 sameDayCSV sameDaySnap (by decide)

end Dash
